import Mathlib

/-!
Verification of the upstream-resolution layer of the `asistente_sdp` bridge
service (`app/modules/sdp_actions.py`).

The module manipulates parsed JSON values: Python `None`, `bool`, `int`,
`str`, `list` and `dict`.  We embed those values as the inductive type
`JVal`; dicts are association lists in insertion order (Python dict keys are
unique, and `dict.get` returns the value of the unique binding or `None`).
Fallible Python code (attribute errors, `int()` conversion errors, upstream
transport calls that may raise) is embedded in `Except String`; the string
is the error text, which matters because `create_ticket` inspects it.
Upstream transport calls (`sdp_get`, `sdp_post_form`, `sdp_post_multipart`)
are external collaborators and are modelled as function-valued environment
records supplied to each embedded entry point.
-/

/-- A parsed JSON value as handled by the Python module. -/
inductive JVal : Type where
  | jnull : JVal
  | jbool (b : Bool) : JVal
  | jint (n : Int) : JVal
  | jstr (s : String) : JVal
  | jlist (xs : List JVal) : JVal
  | jdict (fields : List (String × JVal)) : JVal

/-- Python truthiness of a JSON value (`bool(v)`). -/
def JVal.truthy : JVal → Bool
  | .jnull => false
  | .jbool b => b
  | .jint n => n != 0
  | .jstr s => s != ""
  | .jlist xs => !xs.isEmpty
  | .jdict fs => !fs.isEmpty

/-- `isinstance(v, dict)`. -/
def JVal.isDict : JVal → Bool
  | .jdict _ => true
  | _ => false

/-- `isinstance(v, list)`. -/
def JVal.isList : JVal → Bool
  | .jlist _ => true
  | _ => false

/-- `fs.get(k)` on a dict known to be a dict: the unique binding's value, or
`None` when the key is absent. -/
def jget (fs : List (String × JVal)) (k : String) : JVal :=
  match fs.find? (fun p => p.1 == k) with
  | some p => p.2
  | none => JVal.jnull

/-- `v.get(k)` where `v` may not be a dict: Python raises `AttributeError`
on non-dict receivers. -/
def dictGet (v : JVal) (k : String) : Except String JVal :=
  match v with
  | .jdict fs => .ok (jget fs k)
  | _ => .error "AttributeError"

/-- Python `x or d` (returns `d`, even if falsy, when `x` is falsy). -/
def pyOr (v d : JVal) : JVal := if v.truthy then v else d

/-- Leading and trailing whitespace removed from a character list. -/
def trimL (l : List Char) : List Char :=
  ((l.dropWhile Char.isWhitespace).reverse.dropWhile Char.isWhitespace).reverse

/-- Python `s.strip()`. -/
def pyTrim (s : String) : String := ⟨trimL s.data⟩

/-- Python `s.lower()`. -/
def pyLower (s : String) : String := ⟨s.data.map Char.toLower⟩

/-- The natural number written by a list of decimal digits. -/
def digitsToNat (l : List Char) : Nat :=
  l.foldl (fun acc c => acc * 10 + (c.toNat - 48)) 0

/-- Python `int(s)` on a string: optional sign then decimal digits, with
surrounding whitespace allowed; anything else raises `ValueError`. -/
def parseIntStr (s : String) : Option Int :=
  let t := (pyTrim s).data
  let signedCore : Bool × List Char :=
    match t with
    | '-' :: rest => (true, rest)
    | '+' :: rest => (false, rest)
    | _ => (false, t)
  if signedCore.2.length > 0 && signedCore.2.all Char.isDigit then
    some (if signedCore.1 then -(digitsToNat signedCore.2 : Int)
          else (digitsToNat signedCore.2 : Int))
  else none

/-- Python `int(v)`: ints pass through, bools coerce to 0/1, strings are
parsed, everything else raises. -/
def pyInt : JVal → Except String Int
  | .jbool b => .ok (if b then 1 else 0)
  | .jint n => .ok n
  | .jstr s =>
    match parseIntStr s with
    | some n => .ok n
    | none => .error "ValueError"
  | _ => .error "TypeError"

/-- Python `v.strip().lower()`: only strings have those methods. -/
def pyStripLower : JVal → Except String String
  | .jstr s => .ok (pyLower (pyTrim s))
  | _ => .error "AttributeError"

/-- Python `s.isdigit()`: non-empty and all digit characters. -/
def pyIsdigit (s : String) : Bool := !s.isEmpty && s.data.all Char.isDigit

mutual
/-- Python `repr(v)` (container rendering approximated to CPython's layout;
no theorem depends on the container cases). -/
def pyRepr : JVal → String
  | .jnull => "None"
  | .jbool b => if b then "True" else "False"
  | .jint n => toString n
  | .jstr s => "\x27" ++ s ++ "\x27"
  | .jlist xs => "[" ++ pyReprList xs ++ "]"
  | .jdict fs => "\x7b" ++ pyReprFields fs ++ "\x7d"

def pyReprList : List JVal → String
  | [] => ""
  | [x] => pyRepr x
  | x :: y :: rest => pyRepr x ++ ", " ++ pyReprList (y :: rest)

def pyReprFields : List (String × JVal) → String
  | [] => ""
  | [p] => "\x27" ++ p.1 ++ "\x27: " ++ pyRepr p.2
  | p :: q :: rest => "\x27" ++ p.1 ++ "\x27: " ++ pyRepr p.2 ++ ", " ++ pyReprFields (q :: rest)
end

/-- Python `str(v)`: identity on strings, `repr`-like elsewhere. -/
def pyStr : JVal → String
  | .jstr s => s
  | v => pyRepr v

/- ------------------------------------------------------------------
`_extract_list_items` (sdp_actions.py lines 18-37).
------------------------------------------------------------------- -/

/-- The fixed priority tuple of known list keys (line 30). -/
def knownListKeys : List String := ["requests", "list", "data", "response"]

/-- The first key in `ks` whose value in `fs` is a list (lines 30-33). -/
def findKnownListKey (fs : List (String × JVal)) : List String → Option (List JVal)
  | [] => none
  | k :: ks =>
    match jget fs k with
    | .jlist xs => some xs
    | _ => findKnownListKey fs ks

/-- The first list-typed value of `fs` in insertion order (lines 34-36). -/
def firstListValue : List (String × JVal) → Option (List JVal)
  | [] => none
  | (_, .jlist xs) :: _ => some xs
  | _ :: rest => firstListValue rest

/-- `_extract_list_items`: non-dict inputs (including lists) give `[]`
(lines 28-29); dict inputs are scanned for the known keys, then for any
list-typed value, then default to `[]`. -/
def extract_list_items (resp : JVal) : List JVal :=
  match resp with
  | .jdict fs =>
    match findKnownListKey fs knownListKeys with
    | some xs => xs
    | none =>
      match firstListValue fs with
      | some xs => xs
      | none => []
  | _ => []

/-- `v` viewed as a sequence, when it is one (used to state the
spec-side characterization of `_extract_list_items`). -/
def asList : JVal → Option (List JVal)
  | .jlist xs => some xs
  | _ => none

/- ------------------------------------------------------------------
Strategy 4 of `list_my_tickets`: client-side filtering, sorting and
pagination (sdp_actions.py lines 211-248).
------------------------------------------------------------------- -/

/-- One iteration of the filter loop (lines 216-220): `req` is the item
when it is a dict, else `{}`; `requester = req.get("requester") or {}`;
match when `(requester.get("email_id") or "").strip().lower()` equals the
normalized query email.  `requester.get` raises when `requester` is a
truthy non-dict, and `.strip()` raises when the email field is a truthy
non-string; both are uncaught in the source. -/
def recordMatchesEmail (emailNorm : String) (it : JVal) : Except String Bool := do
  let req : JVal := if it.isDict then it else .jdict []
  let requester := pyOr (← dictGet req "requester") (.jdict [])
  let emailRaw ← dictGet requester "email_id"
  let s ← pyStripLower (pyOr emailRaw (.jstr ""))
  pure (s == emailNorm)

/-- The filter loop over all pulled items, in order (lines 215-220). -/
def filterByEmail (emailNorm : String) : List JVal → Except String (List JVal)
  | [] => .ok []
  | it :: rest => do
    let b ← recordMatchesEmail emailNorm it
    let tail ← filterByEmail emailNorm rest
    pure (if b then it :: tail else tail)

/-- The body of the try-block of `_created_value` (lines 226-227):
`int(ct.get("value") or 0)`. -/
def created_value_inner (ct : JVal) : Except String Int := do
  let v ← dictGet ct "value"
  pyInt (pyOr v (.jint 0))

/-- `_created_value` (lines 223-229): `ct = o.get("created_time") or {}` is
evaluated outside the try/except, so a non-dict record still raises; the
`int(...)` conversion is inside it and collapses to 0 on failure. -/
def created_value (o : JVal) : Except String Int := do
  let ct := pyOr (← dictGet o "created_time") (.jdict [])
  match created_value_inner ct with
  | .ok n => pure n
  | .error _ => pure 0

/-- Compute the sort key of every record, left to right (CPython evaluates
`key=` once per element before sorting); the first raising record aborts. -/
def decorate : List JVal → Except String (List (Int × JVal))
  | [] => .ok []
  | o :: rest => do
    let k ← created_value o
    let tail ← decorate rest
    pure ((k, o) :: tail)

/-- Stable descending insertion: a later element passes over strictly
smaller keys only, so elements with equal keys keep their original order,
as Python's stable `list.sort(..., reverse=True)` does. -/
def insertDescK (x : Int × JVal) : List (Int × JVal) → List (Int × JVal)
  | [] => [x]
  | y :: ys => if y.1 < x.1 then x :: y :: ys else y :: insertDescK x ys

/-- Stable descending sort by precomputed key. -/
def sortDescK (l : List (Int × JVal)) : List (Int × JVal) :=
  l.foldl (fun acc x => insertDescK x acc) []

/-- `filtered.sort(key=_created_value, reverse=True)` (line 231). -/
def sortByCreatedDesc (l : List JVal) : Except String (List JVal) := do
  let keyed ← decorate l
  pure ((sortDescK keyed).map Prod.snd)

/-- The `list_info` mapping of the page built by strategy 4 (lines 240-246). -/
structure ListInfo where
  row_count : Nat
  start_index : Nat
  get_total_count : Bool
  total_count : Nat
  has_more_rows : Bool

/-- The page returned by strategy 4 (lines 239-248). -/
structure PageResult where
  list_info : ListInfo
  requests : List JVal

/-- Strategy 4 of `list_my_tickets` (lines 211-248), as a function of the
pulled block of records: normalize the query email, filter, sort by
creation time descending, then slice `filtered[(page-1)*page_size :
page*page_size]` and report client-side pagination metadata. -/
def list_my_tickets_strategy4 (items : List JVal) (requester_email : String)
    (page page_size : Nat) : Except String PageResult := do
  let email_norm := pyLower (pyTrim requester_email)
  let filtered ← filterByEmail email_norm items
  let sorted ← sortByCreatedDesc filtered
  let total := filtered.length
  let s := (page - 1) * page_size
  let e := s + page_size
  let page_items := (sorted.drop s).take page_size
  pure {
    list_info := {
      row_count := page_items.length
      start_index := if total != 0 then s + 1 else 1
      get_total_count := true
      total_count := total
      has_more_rows := decide (e < total) }
    requests := page_items }

/-- The filtered-set size of strategy 4, when the filter pass does not
raise: the number of pulled records whose requester email matches the
normalized query email. -/
def totalFiltered (items : List JVal) (requester_email : String) : Option Nat :=
  match filterByEmail (pyLower (pyTrim requester_email)) items with
  | .ok l => some l.length
  | .error _ => none

/- ------------------------------------------------------------------
`_compact_from_request_obj` (sdp_actions.py lines 253-277).
------------------------------------------------------------------- -/

/-- The compact ticket view: the dict literal of lines 268-277, whose keys
are fixed, embedded as a structure. -/
structure CompactTicket where
  display_id : String
  subject : JVal
  status : JVal
  status_id : JVal
  created_time : JVal
  requester_email : JVal
  technician : JVal
  site : JVal

/-- `_compact_from_request_obj` (lines 253-277): each nested mapping is
defaulted to `{}` when falsy; a truthy non-dict nested value makes the
corresponding `.get` raise, which the source does not catch. -/
def compact_from_request_obj (obj : JVal) : Except String CompactTicket := do
  let status := pyOr (← dictGet obj "status") (.jdict [])
  let created := pyOr (← dictGet obj "created_time") (.jdict [])
  let requester := pyOr (← dictGet obj "requester") (.jdict [])
  let tech := pyOr (← dictGet obj "technician") (.jdict [])
  let site := pyOr (← dictGet obj "site") (.jdict [])
  let idv := pyOr (← dictGet obj "id") (← dictGet obj "display_id")
  let subject := pyOr (← dictGet obj "subject") (← dictGet obj "short_description")
  let statusName ← dictGet status "name"
  let statusId ← dictGet status "id"
  let createdDisp ← dictGet created "display_value"
  let reqEmail ← dictGet requester "email_id"
  let techName ← dictGet tech "name"
  let siteName ← dictGet site "name"
  pure {
    display_id := pyStr idv
    subject := subject
    status := statusName
    status_id := statusId
    created_time := createdDisp
    requester_email := reqEmail
    technician := techName
    site := siteName }

/- ------------------------------------------------------------------
`get_ticket_status_by_display` (sdp_actions.py lines 280-318).
------------------------------------------------------------------- -/

/-- The upstream transport, as seen by the display lookup: a direct GET by
path (line 299) and a search GET receiving the `input_data` payload
(line 314).  Either call returns parsed JSON or raises. -/
structure SdpEnv where
  getDirect : String → Except String JVal
  getSearch : JVal → Except String JVal

/-- The search payload of lines 307-313: a single-record
(`row_count = 1`) search by `display_id`. -/
def searchInputByDisplay (disp : String) : JVal :=
  .jdict [("list_info", .jdict [
    ("row_count", .jint 1),
    ("start_index", .jint 1),
    ("search_fields", .jdict [("display_id", .jstr disp)])])]

/-- The result of the display lookup: the compacted ticket plus the raw
response payload attached under `raw`. -/
structure TicketStatusResult where
  ticket : CompactTicket
  raw : JVal

/-- Step 2 of `get_ticket_status_by_display` (lines 306-318): search by
display identifier; zero extracted records raise the NotFound-style
`RuntimeError` whose message names the original (unstripped) identifier;
otherwise the first record is compacted and returned together with the raw
search response. -/
def searchByDisplay (env : SdpEnv) (disp display_id : String) :
    Except String TicketStatusResult := do
  let resp ← env.getSearch (searchInputByDisplay disp)
  match extract_list_items resp with
  | [] => .error ("No se encontró ticket con display_id=" ++ display_id)
  | first :: _ => do
    let t ← compact_from_request_obj first
    pure { ticket := t, raw := .jdict [("list_response", resp)] }

/-- The try-block of step 1 (lines 298-304): fetch directly by id; when the
response is a dict holding a dict under `request`, compact and return it;
a non-returning success (`.ok none`) or any raise falls through. -/
def directFetchAttempt (env : SdpEnv) (disp : String) :
    Except String (Option TicketStatusResult) := do
  let r ← env.getDirect ("/api/v3/requests/" ++ disp)
  let req : JVal :=
    match r with
    | .jdict fs => jget fs "request"
    | _ => .jnull
  match req with
  | .jdict rfs => do
    let t ← compact_from_request_obj (.jdict rfs)
    pure (some { ticket := t, raw := r })
  | _ => pure none

/-- `get_ticket_status_by_display` (lines 280-318): strip the identifier;
when it is all digits, try the direct fetch, swallowing both failures and
non-`request`-shaped successes; otherwise (or on fallthrough) run the
search path. -/
def get_ticket_status_by_display (env : SdpEnv) (display_id : String) :
    Except String TicketStatusResult :=
  let disp := pyTrim display_id
  let fromDirect : Option TicketStatusResult :=
    if pyIsdigit disp then
      match directFetchAttempt env disp with
      | .ok (some out) => some out
      | _ => none
    else none
  match fromDirect with
  | some out => .ok out
  | none => searchByDisplay env disp display_id

/- ------------------------------------------------------------------
`_apply_site_and_template` and `create_ticket`
(sdp_actions.py lines 40-66 and 96-127).
------------------------------------------------------------------- -/

/-- The module-level configuration read from the environment (lines 9-14):
each variable is either absent or a string; `ALLOW_TEMPLATE_FALLBACK` is
the already-decoded toggle. -/
structure SdpConfig where
  sdp_default_site_id : Option String
  sdp_default_site_name : Option String
  sdp_template_id : Option String
  sdp_template_name : Option String
  allow_template_fallback : Bool

/-- Truthiness of an environment variable: present and non-empty. -/
def envTruthy : Option String → Bool
  | some s => s != ""
  | none => false

/-- Python dict assignment `fs[k] = v`: overwrite the existing binding in
place, or append a new one. -/
def setKey (fs : List (String × JVal)) (k : String) (v : JVal) :
    List (String × JVal) :=
  if fs.any (fun p => p.1 == k) then
    fs.map (fun p => if p.1 == k then (k, v) else p)
  else fs ++ [(k, v)]

/-- `int(s)` with the fall-back-to-string `except` of lines 52-55/61-64. -/
def idOrStr (s : String) : JVal :=
  match parseIntStr s with
  | some n => .jint n
  | none => .jstr s

/-- `_apply_site_and_template` (lines 40-66), functionally: insert the
configured `site` clause (id before name), then, when requested, the
configured `template` clause (id before name). -/
def apply_site_and_template (cfg : SdpConfig) (req : List (String × JVal))
    (include_template : Bool) : List (String × JVal) :=
  let req1 :=
    if envTruthy cfg.sdp_default_site_id then
      setKey req "site" (.jdict [("id", idOrStr (cfg.sdp_default_site_id.getD ""))])
    else if envTruthy cfg.sdp_default_site_name then
      setKey req "site" (.jdict [("name", .jstr (cfg.sdp_default_site_name.getD ""))])
    else req
  if include_template then
    if envTruthy cfg.sdp_template_id then
      setKey req1 "template" (.jdict [("id", idOrStr (cfg.sdp_template_id.getD ""))])
    else if envTruthy cfg.sdp_template_name then
      setKey req1 "template" (.jdict [("name", .jstr (cfg.sdp_template_name.getD ""))])
    else req1
  else req1

/-- The transport used by ticket creation: `sdp_post_form(path, form)`,
receiving the pre-serialization payload object. -/
structure CreateEnv where
  postForm : String → JVal → Except String JVal

/-- The request object built by `_do_create` (lines 113-118) after site
and template injection. -/
def buildCreateRequest (cfg : SdpConfig)
    (requester_email subject description : String)
    (include_template : Bool) : List (String × JVal) :=
  apply_site_and_template cfg
    [("requester", .jdict [("email_id", .jstr requester_email)]),
     ("subject", .jstr subject),
     ("description", .jstr description)]
    include_template

/-- `_do_create` (lines 112-120): build the payload and post it. -/
def do_create (cfg : SdpConfig) (env : CreateEnv)
    (requester_email subject description : String)
    (include_template : Bool) : Except String JVal :=
  env.postForm "/api/v3/requests"
    (.jdict [("request",
      .jdict (buildCreateRequest cfg requester_email subject description
        include_template))])

/-- `pat` is a prefix of the character list. -/
def isPrefixOfL : List Char → List Char → Bool
  | [], _ => true
  | _ :: _, [] => false
  | a :: as, b :: bs => a == b && isPrefixOfL as bs

/-- `pat` occurs as a contiguous run of the character list. -/
def containsSubL (pat : List Char) : List Char → Bool
  | [] => isPrefixOfL pat []
  | c :: rest => isPrefixOfL pat (c :: rest) || containsSubL pat rest

/-- Python `pat in s`: substring containment. -/
def strContains (s pat : String) : Bool := containsSubL pat.data s.data

/-- `create_ticket` (lines 96-127): try with the template clause; when the
first call raises, the fallback toggle is on, and the lowered error text
contains `template`, retry exactly once without the template clause,
returning that second call verbatim; otherwise re-raise the first error. -/
def create_ticket (cfg : SdpConfig) (env : CreateEnv)
    (requester_email subject description : String) : Except String JVal :=
  match do_create cfg env requester_email subject description true with
  | .ok r => .ok r
  | .error e =>
    if cfg.allow_template_fallback && strContains (pyLower e) "template" then
      do_create cfg env requester_email subject description false
    else .error e

/- ------------------------------------------------------------------
`add_note` (sdp_actions.py lines 322-387).
------------------------------------------------------------------- -/

/-- Which transport encoding an attempt used. -/
inductive NoteTransport : Type where
  | multipart : NoteTransport
  | form : NoteTransport

/-- The notes endpoint path for a ticket. -/
def notesPath (ticket_id : Int) : String :=
  "/api/v3/requests/" ++ toString ticket_id ++ "/notes"

/-- Attempt 1 payload (lines 342-348): `request_note.description`. -/
def notePayload1 (note_text : String) : JVal :=
  .jdict [("request_note", .jdict [
    ("description", .jstr note_text),
    ("show_to_requester", .jbool true),
    ("add_to_linked_requests", .jbool false)])]

/-- Attempt 2 payload (lines 355-361): `request_note.content`. -/
def notePayload2 (note_text : String) : JVal :=
  .jdict [("request_note", .jdict [
    ("content", .jstr note_text),
    ("show_to_requester", .jbool true),
    ("add_to_linked_requests", .jbool false)])]

/-- Attempt 3 payload (lines 368-373): the flatter `note` envelope. -/
def notePayload3 (note_text : String) : JVal :=
  .jdict [("note", .jdict [
    ("description", .jstr note_text),
    ("show_to_requester", .jbool true)])]

/-- Attempt 4 payload (lines 379-385): rebuilt identically to attempt 1,
but sent form-encoded. -/
def notePayload4 (note_text : String) : JVal :=
  .jdict [("request_note", .jdict [
    ("description", .jstr note_text),
    ("show_to_requester", .jbool true),
    ("add_to_linked_requests", .jbool false)])]

/-- The transport used by note submission. -/
structure NoteEnv where
  postMultipart : String → JVal → Except String JVal
  postForm : String → JVal → Except String JVal

/-- `add_note` (lines 322-387) instrumented with the trace of attempts
actually issued, in order: each multipart attempt's failure falls through
to the next; the final form-encoded attempt is not caught. -/
def add_note_traced (env : NoteEnv) (ticket_id : Int)
    (requester_email note_text : String) :
    Except String JVal × List (NoteTransport × JVal) :=
  let path := notesPath ticket_id
  match env.postMultipart path (notePayload1 note_text) with
  | .ok r => (.ok r, [(.multipart, notePayload1 note_text)])
  | .error _ =>
    match env.postMultipart path (notePayload2 note_text) with
    | .ok r => (.ok r,
        [(.multipart, notePayload1 note_text),
         (.multipart, notePayload2 note_text)])
    | .error _ =>
      match env.postMultipart path (notePayload3 note_text) with
      | .ok r => (.ok r,
          [(.multipart, notePayload1 note_text),
           (.multipart, notePayload2 note_text),
           (.multipart, notePayload3 note_text)])
      | .error _ =>
        (env.postForm path (notePayload4 note_text),
          [(.multipart, notePayload1 note_text),
           (.multipart, notePayload2 note_text),
           (.multipart, notePayload3 note_text),
           (.form, notePayload4 note_text)])

/-- `add_note`, result only. -/
def add_note (env : NoteEnv) (ticket_id : Int)
    (requester_email note_text : String) : Except String JVal :=
  (add_note_traced env ticket_id requester_email note_text).1

/-- Whether a template clause is configured (id or name present). -/
def templateConfigured (cfg : SdpConfig) : Bool :=
  envTruthy cfg.sdp_template_id || envTruthy cfg.sdp_template_name

/-- Whether a dict has a binding for `k`. -/
def hasKey (fs : List (String × JVal)) (k : String) : Bool :=
  fs.any (fun p => p.1 == k)

/- ------------------------------------------------------------------
Concrete inputs used by witnesses and counterexamples.
------------------------------------------------------------------- -/

/-- A record with no `created_time` at all. -/
def cexAbsent : JVal := .jdict []

/-- A record with a valid numeric creation time of `-1`. -/
def cexNegTime : JVal := .jdict [("created_time", .jdict [("value", .jint (-1))])]

/-- A matching record created at epoch 5. -/
def recMatchA : JVal := .jdict [
  ("requester", .jdict [("email_id", .jstr "A@x.com")]),
  ("created_time", .jdict [("value", .jint 5)])]

/-- A matching record (email differing only by case and padding) created at
epoch 9. -/
def recMatchB : JVal := .jdict [
  ("requester", .jdict [("email_id", .jstr "a@X.com ")]),
  ("created_time", .jdict [("value", .jint 9)])]

/-- A record for a different requester. -/
def recOther : JVal := .jdict [
  ("requester", .jdict [("email_id", .jstr "other@x.com")])]

/-- A pulled block with two matching records and one non-matching one. -/
def itemsW : List JVal := [recMatchA, recOther, recMatchB]

/-- The page strategy 4 assembles from `itemsW` for `page = 1`,
`page_size = 1`. -/
def pageW : PageResult :=
  { list_info :=
      { row_count := 1
        start_index := 1
        get_total_count := true
        total_count := 2
        has_more_rows := true }
    requests := [recMatchB] }

/-- An environment whose search responds with a record-free dict. -/
def envSearchEmpty : SdpEnv :=
  { getDirect := fun _ => .error "no direct", getSearch := fun _ => .ok (.jdict []) }

/-- An environment whose direct fetch raises. -/
def envDirectFail : SdpEnv :=
  { getDirect := fun _ => .error "timeout", getSearch := fun _ => .ok (.jdict []) }

/-- An environment whose direct fetch succeeds with a body that has no
`request` object. -/
def envDirectOdd : SdpEnv :=
  { getDirect := fun _ => .ok (.jdict [("response_status", .jstr "success")]),
    getSearch := fun _ => .ok (.jdict []) }

/-- A configuration with no site/template and the fallback toggle on. -/
def cfgW : SdpConfig :=
  { sdp_default_site_id := none, sdp_default_site_name := none,
    sdp_template_id := none, sdp_template_name := none,
    allow_template_fallback := true }

/-- A creation transport that always rejects, mentioning the template. -/
def envCreateFail : CreateEnv :=
  { postForm := fun _ _ => .error "No TEMPLATE found" }

/-- A note transport accepting only the `note` envelope of attempt 3. -/
def envNoteThird : NoteEnv :=
  { postMultipart := fun _ payload =>
      match payload with
      | .jdict (("note", _) :: _) => .ok (.jstr "ok3")
      | _ => .error "unsupported"
    postForm := fun _ _ => .error "form fails" }

/-- A request object carrying only a subject. -/
def fsW : List (String × JVal) := [("subject", .jstr "Impresora")]

/- ==================================================================
Theorems.
================================================================== -/

lemma ebind_ok {α β : Type} (a : α) (f : α → Except String β) :
    (Except.ok a >>= f) = f a := rfl

lemma ebind_error {α β : Type} (e : String) (f : α → Except String β) :
    ((Except.error e : Except String α) >>= f) = Except.error e := rfl

lemma emap_ok {α β : Type} (g : α → β) (a : α) :
    (g <$> (Except.ok a : Except String α)) = Except.ok (g a) := rfl

lemma emap_error {α β : Type} (g : α → β) (e : String) :
    (g <$> (Except.error e : Except String α)) = Except.error e := rfl

lemma epure_def {α : Type} (a : α) : (pure a : Except String α) = Except.ok a := rfl

lemma findKnownListKey_eq_findSome (fs : List (String × JVal)) (ks : List String) :
    findKnownListKey fs ks = ks.findSome? (fun k => asList (jget fs k)) := by
  induction ks with
  | nil => rfl
  | cons k ks ih =>
    rw [List.findSome?_cons]
    cases h : jget fs k <;> simp [findKnownListKey, h, asList, ih]

lemma firstListValue_eq_findSome (fs : List (String × JVal)) :
    firstListValue fs = fs.findSome? (fun p => asList p.2) := by
  induction fs with
  | nil => rfl
  | cons p rest ih =>
    obtain ⟨k, v⟩ := p
    rw [List.findSome?_cons]
    cases v <;> simp [firstListValue, asList, ih]

/-- C2 counterexample: on an input that is already a sequence,
`_extract_list_items` returns the empty list, not that sequence. -/
theorem extract_on_list_input_cex :
    extract_list_items (JVal.jlist [JVal.jint 7]) = []
    ∧ ([] : List JVal) ≠ [JVal.jint 7] :=
  ⟨rfl, by simp⟩

/-- C2 (amended): for every input that is a sequence rather than a mapping,
`_extract_list_items` returns the empty sequence (the as-is passthrough for
sequence-shaped responses is performed by its caller `get_announcements`,
not by `_extract_list_items` itself). -/
theorem extract_on_list_input (xs : List JVal) :
    extract_list_items (.jlist xs) = [] := rfl

/-- C9: on a mapping, `_extract_list_items` returns the list under the
first key, in the fixed priority order `requests`, `list`, `data`,
`response`, whose value is a list — exactly those records, in order;
failing that, the first list-typed value in insertion order; failing that,
the empty sequence. -/
theorem extract_from_mapping (fs : List (String × JVal)) :
    extract_list_items (.jdict fs) =
      (((["requests", "list", "data", "response"].findSome?
          fun k => asList (jget fs k)).orElse
        fun _ => fs.findSome? fun p => asList p.2).getD []) := by
  have h1 : knownListKeys.findSome? (fun k => asList (jget fs k)) =
      ["requests", "list", "data", "response"].findSome? fun k => asList (jget fs k) := rfl
  rw [← h1, ← findKnownListKey_eq_findSome, ← firstListValue_eq_findSome]
  cases hk : findKnownListKey fs knownListKeys <;>
    cases hv : firstListValue fs <;>
      simp [extract_list_items, hk, hv, Option.orElse, Option.getD]

lemma hasKey_setKey_self (fs : List (String × JVal)) (k : String) (v : JVal) :
    hasKey (setKey fs k v) k = true := by
  unfold hasKey setKey
  split
  · next h =>
    obtain ⟨p, hp, hpk⟩ := List.any_eq_true.mp h
    refine List.any_eq_true.mpr ⟨(k, v), ?_, by simp⟩
    exact List.mem_map.mpr ⟨p, hp, by simp [hpk]⟩
  · refine List.any_eq_true.mpr ⟨(k, v), ?_, by simp⟩
    simp

lemma listAnyCongr {α : Type} (l : List α) (p q : α → Bool)
    (h : ∀ a ∈ l, p a = q a) : l.any p = l.any q := by
  induction l with
  | nil => rfl
  | cons x xs ih =>
    simp only [List.any_cons]
    rw [h x (List.mem_cons_self x xs), ih fun a ha => h a (List.mem_cons_of_mem x ha)]

lemma hasKey_setKey_other (fs : List (String × JVal)) (k k2 : String) (v : JVal)
    (hne : (k == k2) = false) : hasKey (setKey fs k v) k2 = hasKey fs k2 := by
  unfold hasKey setKey
  split
  · rw [List.any_map]
    apply listAnyCongr
    intro p _
    by_cases hp : (p.1 == k) = true
    · have hpe : p.1 = k := by simpa using hp
      simp [Function.comp, hp, hpe, hne]
    · simp [Function.comp, hp]
  · rw [List.any_append]
    simp [hne]

/-- C5: `create_ticket` first attempts creation with the template clause
included (the payload carries a `template` binding whenever one is
configured); if that attempt raises while the fallback toggle is on and the
lowered error text contains `template`, it rebuilds the payload without a
template clause and retries exactly once, returning the second call
verbatim; any other first failure propagates unmodified (and a retry
failure, being the second call's verbatim result, also propagates). -/
theorem create_ticket_template_fallback (cfg : SdpConfig) (env : CreateEnv)
    (re su de : String) :
    (templateConfigured cfg = true →
      hasKey (buildCreateRequest cfg re su de true) "template" = true)
    ∧ hasKey (buildCreateRequest cfg re su de false) "template" = false
    ∧ (∀ r, do_create cfg env re su de true = .ok r →
        create_ticket cfg env re su de = .ok r)
    ∧ (∀ e, do_create cfg env re su de true = .error e →
        cfg.allow_template_fallback = true →
        strContains (pyLower e) "template" = true →
        create_ticket cfg env re su de = do_create cfg env re su de false)
    ∧ (∀ e, do_create cfg env re su de true = .error e →
        cfg.allow_template_fallback = false ∨
          strContains (pyLower e) "template" = false →
        create_ticket cfg env re su de = .error e) := by
  refine ⟨?_, ?_, ?_, ?_, ?_⟩
  · intro htc
    unfold buildCreateRequest apply_site_and_template
    unfold templateConfigured at htc
    by_cases hid : envTruthy cfg.sdp_template_id = true
    · simp only [if_pos rfl, hid, if_true]
      exact hasKey_setKey_self _ _ _
    · have hname : envTruthy cfg.sdp_template_name = true := by
        rcases (by simpa using htc :
            envTruthy cfg.sdp_template_id = true ∨
              envTruthy cfg.sdp_template_name = true) with h | h
        · exact absurd h hid
        · exact h
      simp only [Bool.not_eq_true] at hid
      simp only [if_pos rfl, hid, hname, if_true, Bool.false_eq_true, if_false]
      exact hasKey_setKey_self _ _ _
  · unfold buildCreateRequest apply_site_and_template
    have hbase : hasKey
        [("requester", JVal.jdict [("email_id", JVal.jstr re)]),
         ("subject", JVal.jstr su), ("description", JVal.jstr de)] "template" = false := rfl
    simp only [Bool.false_eq_true, if_false]
    split
    · rw [hasKey_setKey_other _ "site" "template" _ (by decide)]
      exact hbase
    · split
      · rw [hasKey_setKey_other _ "site" "template" _ (by decide)]
        exact hbase
      · exact hbase
  · intro r h
    simp [create_ticket, h]
  · intro e h htoggle htext
    simp [create_ticket, h, htoggle, htext]
  · intro e h hother
    rcases hother with h2 | h2 <;> simp [create_ticket, h, h2]

/-- C5 witness: with the fallback toggle on and a transport that always
rejects mentioning the template, the first failure triggers exactly one
retry without the template clause, whose verbatim result is returned. -/
theorem create_ticket_template_fallback_witness :
    create_ticket cfgW envCreateFail "a@x.com" "asunto" "detalle" =
      do_create cfgW envCreateFail "a@x.com" "asunto" "detalle" false :=
  (create_ticket_template_fallback cfgW envCreateFail "a@x.com" "asunto"
    "detalle").2.2.2.1 "No TEMPLATE found" rfl rfl (by decide)

/-- C6: `add_note` tries the four payload encodings in fixed order
(multipart `request_note.description`, multipart `request_note.content`,
multipart `note` envelope, form-encoded `request_note.description`),
returns the response of the first attempt that does not raise, issues no
attempt after a success (the trace stops at the succeeding attempt), and
returns the fourth attempt's outcome verbatim — so a failure there
propagates uncaught. -/
theorem add_note_negotiation (env : NoteEnv) (tid : Int) (re note : String) :
    (∀ r, env.postMultipart (notesPath tid) (notePayload1 note) = .ok r →
      add_note_traced env tid re note =
        (.ok r, [(.multipart, notePayload1 note)]))
    ∧ (∀ e1 r, env.postMultipart (notesPath tid) (notePayload1 note) = .error e1 →
        env.postMultipart (notesPath tid) (notePayload2 note) = .ok r →
        add_note_traced env tid re note =
          (.ok r, [(.multipart, notePayload1 note),
                   (.multipart, notePayload2 note)]))
    ∧ (∀ e1 e2 r, env.postMultipart (notesPath tid) (notePayload1 note) = .error e1 →
        env.postMultipart (notesPath tid) (notePayload2 note) = .error e2 →
        env.postMultipart (notesPath tid) (notePayload3 note) = .ok r →
        add_note_traced env tid re note =
          (.ok r, [(.multipart, notePayload1 note),
                   (.multipart, notePayload2 note),
                   (.multipart, notePayload3 note)]))
    ∧ (∀ e1 e2 e3, env.postMultipart (notesPath tid) (notePayload1 note) = .error e1 →
        env.postMultipart (notesPath tid) (notePayload2 note) = .error e2 →
        env.postMultipart (notesPath tid) (notePayload3 note) = .error e3 →
        add_note_traced env tid re note =
          (env.postForm (notesPath tid) (notePayload4 note),
           [(.multipart, notePayload1 note),
            (.multipart, notePayload2 note),
            (.multipart, notePayload3 note),
            (.form, notePayload4 note)])) := by
  refine ⟨?_, ?_, ?_, ?_⟩
  · intro r h1
    simp [add_note_traced, h1]
  · intro e1 r h1 h2
    simp [add_note_traced, h1, h2]
  · intro e1 e2 r h1 h2 h3
    simp [add_note_traced, h1, h2, h3]
  · intro e1 e2 e3 h1 h2 h3
    simp [add_note_traced, h1, h2, h3]

/-- C6 witness (Scenario D): with a transport accepting only the `note`
envelope, attempts 1 and 2 raise, attempt 3 succeeds, its response is
returned, and no fourth attempt is issued. -/
theorem add_note_negotiation_witness :
    add_note_traced envNoteThird 5 "a@x.com" "hola" =
      (.ok (.jstr "ok3"),
       [(.multipart, notePayload1 "hola"),
        (.multipart, notePayload2 "hola"),
        (.multipart, notePayload3 "hola")]) :=
  (add_note_negotiation envNoteThird 5 "a@x.com" "hola").2.2.1
    "unsupported" "unsupported" (.jstr "ok3") rfl rfl rfl

lemma searchByDisplay_getSearch_congr (env env2 : SdpEnv) (disp did : String)
    (hs : env2.getSearch = env.getSearch) :
    searchByDisplay env disp did = searchByDisplay env2 disp did := by
  unfold searchByDisplay
  rw [hs]

/-- C4: for a display identifier that is not all-digits, the lookup issues
only the single-record (`row_count = 1`) search by display identifier — the
result does not depend on the direct-fetch transport at all; when that
search succeeds but extracts zero records, the call fails with the
NotFound-style error naming the display identifier; otherwise it returns
the compacted first record together with the raw search response. -/
theorem status_by_display_non_digit (env env2 : SdpEnv) (d : String)
    (hnd : pyIsdigit (pyTrim d) = false) (hs : env2.getSearch = env.getSearch) :
    get_ticket_status_by_display env d = get_ticket_status_by_display env2 d
    ∧ (∀ resp, env.getSearch (searchInputByDisplay (pyTrim d)) = .ok resp →
        extract_list_items resp = [] →
        get_ticket_status_by_display env d =
          .error ("No se encontró ticket con display_id=" ++ d))
    ∧ (∀ resp first rest t,
        env.getSearch (searchInputByDisplay (pyTrim d)) = .ok resp →
        extract_list_items resp = first :: rest →
        compact_from_request_obj first = .ok t →
        get_ticket_status_by_display env d =
          .ok { ticket := t, raw := .jdict [("list_response", resp)] }) := by
  have hred : ∀ envx : SdpEnv, envx.getSearch = env.getSearch →
      get_ticket_status_by_display envx d = searchByDisplay env (pyTrim d) d := by
    intro envx hx
    unfold get_ticket_status_by_display
    simp only [hnd, Bool.false_eq_true, if_false]
    exact (searchByDisplay_getSearch_congr env envx (pyTrim d) d hx).symm
  refine ⟨?_, ?_, ?_⟩
  · rw [hred env rfl, hred env2 hs]
  · intro resp hresp hempty
    rw [hred env rfl]
    unfold searchByDisplay
    rw [hresp]
    simp [ebind_ok, hempty]
  · intro resp first rest t hresp hfirst ht
    rw [hred env rfl]
    unfold searchByDisplay
    rw [hresp]
    simp [ebind_ok, hfirst, ht, emap_ok]

/-- C4 witness (Scenario C): a non-digit identifier with a record-free
search response yields the NotFound-style error naming the identifier. -/
theorem status_by_display_non_digit_witness :
    get_ticket_status_by_display envSearchEmpty "REQ-404" =
      .error "No se encontró ticket con display_id=REQ-404" :=
  ((status_by_display_non_digit envSearchEmpty envSearchEmpty "REQ-404"
      (by decide) rfl).2.1 (.jdict []) rfl rfl).trans rfl

/-- C8: for an all-digits display identifier whose direct fetch raises —
for any reason — the call falls through to the search-by-display path:
its result is exactly the search path's result, so the original direct
error is never surfaced. -/
theorem status_by_display_direct_failure (env : SdpEnv) (d : String)
    (hd : pyIsdigit (pyTrim d) = true) (e : String)
    (hdir : env.getDirect ("/api/v3/requests/" ++ pyTrim d) = .error e) :
    get_ticket_status_by_display env d = searchByDisplay env (pyTrim d) d := by
  have hda : directFetchAttempt env (pyTrim d) = .error e := by
    unfold directFetchAttempt
    rw [hdir]
    rfl
  unfold get_ticket_status_by_display
  simp only [hd, if_true, hda]

/-- C8 witness: a digits-only identifier with a raising direct fetch
(error text `timeout`, not a not-found condition) still resolves through
the search path. -/
theorem status_by_display_direct_failure_witness :
    get_ticket_status_by_display envDirectFail "1042" =
      searchByDisplay envDirectFail "1042" "1042" :=
  status_by_display_direct_failure envDirectFail "1042" (by decide) "timeout" rfl

/-- C10: for an all-digits display identifier whose direct fetch succeeds
with a body that is not a mapping holding a mapping under `request`, the
lookup raises nothing at that step and silently proceeds to the
search-by-display fallback. -/
theorem status_by_display_shapeless_success (env : SdpEnv) (d : String)
    (hd : pyIsdigit (pyTrim d) = true) (r : JVal)
    (hok : env.getDirect ("/api/v3/requests/" ++ pyTrim d) = .ok r)
    (hnoreq : ∀ fs, r = .jdict fs → (jget fs "request").isDict = false) :
    get_ticket_status_by_display env d = searchByDisplay env (pyTrim d) d := by
  have hda : directFetchAttempt env (pyTrim d) = .ok none := by
    unfold directFetchAttempt
    rw [hok]
    cases r with
    | jdict fs =>
      have h := hnoreq fs rfl
      cases hreq : jget fs "request" with
      | jdict rfs => rw [hreq] at h; exact absurd h (by simp [JVal.isDict])
      | jnull => simp [hreq, ebind_ok, epure_def]
      | jbool b => simp [hreq, ebind_ok, epure_def]
      | jint n => simp [hreq, ebind_ok, epure_def]
      | jstr s => simp [hreq, ebind_ok, epure_def]
      | jlist xs => simp [hreq, ebind_ok, epure_def]
    | jnull => rfl
    | jbool b => rfl
    | jint n => rfl
    | jstr s => rfl
    | jlist xs => rfl
  unfold get_ticket_status_by_display
  simp only [hd, if_true, hda]

/-- C10 witness: a digits-only identifier whose direct fetch returns a
status dict without a `request` object falls through to the search path. -/
theorem status_by_display_shapeless_success_witness :
    get_ticket_status_by_display envDirectOdd "7" =
      searchByDisplay envDirectOdd "7" "7" :=
  status_by_display_shapeless_success envDirectOdd "7" (by decide)
    (.jdict [("response_status", .jstr "success")]) rfl
    (by intro fs h; cases h; decide)

lemma pyOr_default_dict (v : JVal) (h : v.truthy = true → v.isDict = true) :
    ∃ gs, pyOr v (.jdict []) = .jdict gs := by
  cases v with
  | jnull => exact ⟨[], rfl⟩
  | jbool b =>
    cases b with
    | false => exact ⟨[], rfl⟩
    | true => exact absurd (h rfl) (by simp [JVal.isDict])
  | jint n =>
    by_cases hn : (JVal.jint n).truthy = true
    · exact absurd (h hn) (by simp [JVal.isDict])
    · exact ⟨[], by simp [pyOr, hn]⟩
  | jstr s =>
    by_cases hn : (JVal.jstr s).truthy = true
    · exact absurd (h hn) (by simp [JVal.isDict])
    · exact ⟨[], by simp [pyOr, hn]⟩
  | jlist xs =>
    by_cases hn : (JVal.jlist xs).truthy = true
    · exact absurd (h hn) (by simp [JVal.isDict])
    · exact ⟨[], by simp [pyOr, hn]⟩
  | jdict gs =>
    by_cases hn : (JVal.jdict gs).truthy = true
    · exact ⟨gs, by simp [pyOr, hn]⟩
    · exact ⟨[], by simp [pyOr, hn]⟩

/-- C7: `_compact_from_request_obj` is total on structurally incomplete
input: on any mapping whose `requester`, `technician`, `site`, `status` and
`created_time` entries are each either absent (or null) or mapping-shaped,
it returns a compact ticket without raising, and each absent nested entry
yields null for the corresponding output fields. -/
theorem compact_total_on_incomplete (fs : List (String × JVal))
    (hsafe : ∀ k ∈ ["requester", "technician", "site", "status", "created_time"],
      (jget fs k).truthy = true → (jget fs k).isDict = true) :
    ∃ t : CompactTicket, compact_from_request_obj (.jdict fs) = .ok t
      ∧ (jget fs "status" = .jnull → t.status = .jnull ∧ t.status_id = .jnull)
      ∧ (jget fs "created_time" = .jnull → t.created_time = .jnull)
      ∧ (jget fs "requester" = .jnull → t.requester_email = .jnull)
      ∧ (jget fs "technician" = .jnull → t.technician = .jnull)
      ∧ (jget fs "site" = .jnull → t.site = .jnull) := by
  obtain ⟨gst, hgst⟩ := pyOr_default_dict (jget fs "status") (hsafe "status" (by simp))
  obtain ⟨gcr, hgcr⟩ := pyOr_default_dict (jget fs "created_time")
    (hsafe "created_time" (by simp))
  obtain ⟨grq, hgrq⟩ := pyOr_default_dict (jget fs "requester")
    (hsafe "requester" (by simp))
  obtain ⟨gtc, hgtc⟩ := pyOr_default_dict (jget fs "technician")
    (hsafe "technician" (by simp))
  obtain ⟨gsi, hgsi⟩ := pyOr_default_dict (jget fs "site") (hsafe "site" (by simp))
  refine ⟨{
      display_id := pyStr (pyOr (jget fs "id") (jget fs "display_id"))
      subject := pyOr (jget fs "subject") (jget fs "short_description")
      status := jget gst "name"
      status_id := jget gst "id"
      created_time := jget gcr "display_value"
      requester_email := jget grq "email_id"
      technician := jget gtc "name"
      site := jget gsi "name" }, ?_, ?_, ?_, ?_, ?_, ?_⟩
  · unfold compact_from_request_obj
    simp only [dictGet, ebind_ok, hgst, hgcr, hgrq, hgtc, hgsi, epure_def]
  · intro hnull
    rw [hnull] at hgst
    have hg : gst = [] := by simpa [pyOr, JVal.truthy] using hgst.symm
    subst hg
    exact ⟨rfl, rfl⟩
  · intro hnull
    rw [hnull] at hgcr
    have hg : gcr = [] := by simpa [pyOr, JVal.truthy] using hgcr.symm
    subst hg
    rfl
  · intro hnull
    rw [hnull] at hgrq
    have hg : grq = [] := by simpa [pyOr, JVal.truthy] using hgrq.symm
    subst hg
    rfl
  · intro hnull
    rw [hnull] at hgtc
    have hg : gtc = [] := by simpa [pyOr, JVal.truthy] using hgtc.symm
    subst hg
    rfl
  · intro hnull
    rw [hnull] at hgsi
    have hg : gsi = [] := by simpa [pyOr, JVal.truthy] using hgsi.symm
    subst hg
    rfl

/-- C7 witness: a request object carrying only a subject compacts without
raising, with null status, requester email, technician and site. -/
theorem compact_total_on_incomplete_witness :
    ∃ t : CompactTicket, compact_from_request_obj (.jdict fsW) = .ok t
      ∧ t.status = .jnull ∧ t.created_time = .jnull ∧ t.requester_email = .jnull
      ∧ t.technician = .jnull ∧ t.site = .jnull := by
  obtain ⟨t, hok, h1, h2, h3, h4, h5⟩ :=
    compact_total_on_incomplete fsW (by decide)
  exact ⟨t, hok, (h1 rfl).1, h2 rfl, h3 rfl, h4 rfl, h5 rfl⟩

lemma insertDescK_length (x : Int × JVal) (l : List (Int × JVal)) :
    (insertDescK x l).length = l.length + 1 := by
  induction l with
  | nil => rfl
  | cons y ys ih =>
    unfold insertDescK
    split
    · simp
    · simp [ih]

lemma foldl_insertDescK_length (l acc : List (Int × JVal)) :
    (l.foldl (fun a x => insertDescK x a) acc).length = acc.length + l.length := by
  induction l generalizing acc with
  | nil => simp
  | cons x xs ih =>
    simp only [List.foldl_cons, List.length_cons]
    rw [ih, insertDescK_length]
    omega

lemma sortDescK_length (l : List (Int × JVal)) :
    (sortDescK l).length = l.length := by
  unfold sortDescK
  rw [foldl_insertDescK_length]
  simp

lemma mem_insertDescK (a x : Int × JVal) (l : List (Int × JVal)) :
    a ∈ insertDescK x l ↔ a = x ∨ a ∈ l := by
  induction l with
  | nil => simp [insertDescK]
  | cons y ys ih =>
    unfold insertDescK
    split
    · simp only [List.mem_cons]
    · simp only [List.mem_cons, ih]
      tauto

lemma mem_foldl_insertDescK (a : Int × JVal) (l acc : List (Int × JVal))
    (h : a ∈ l.foldl (fun ac x => insertDescK x ac) acc) : a ∈ acc ∨ a ∈ l := by
  induction l generalizing acc with
  | nil => exact Or.inl (by simpa using h)
  | cons x xs ih =>
    simp only [List.foldl_cons] at h
    rcases ih (insertDescK x acc) h with h2 | h2
    · rcases (mem_insertDescK a x acc).mp h2 with h3 | h3
      · exact Or.inr (by simp [h3])
      · exact Or.inl h3
    · exact Or.inr (List.mem_cons_of_mem x h2)

lemma mem_sortDescK (a : Int × JVal) (l : List (Int × JVal))
    (h : a ∈ sortDescK l) : a ∈ l := by
  rcases mem_foldl_insertDescK a l [] h with h2 | h2
  · simp at h2
  · exact h2

lemma pairwise_insertDescK (x : Int × JVal) (l : List (Int × JVal))
    (h : l.Pairwise (fun a b => b.1 ≤ a.1)) :
    (insertDescK x l).Pairwise (fun a b => b.1 ≤ a.1) := by
  induction l with
  | nil => simp [insertDescK]
  | cons y ys ih =>
    rw [List.pairwise_cons] at h
    obtain ⟨hy, hys⟩ := h
    unfold insertDescK
    split
    · next hlt =>
      rw [List.pairwise_cons]
      constructor
      · intro z hz
        rw [List.mem_cons] at hz
        rcases hz with hz | hz
        · subst hz
          omega
        · have := hy z hz
          omega
      · rw [List.pairwise_cons]
        exact ⟨hy, hys⟩
    · next hge =>
      rw [List.pairwise_cons]
      constructor
      · intro z hz
        rcases (mem_insertDescK z x ys).mp hz with h2 | h2
        · subst h2
          omega
        · exact hy z h2
      · exact ih hys

lemma pairwise_foldl_insertDescK (l acc : List (Int × JVal))
    (h : acc.Pairwise (fun a b => b.1 ≤ a.1)) :
    (l.foldl (fun ac x => insertDescK x ac) acc).Pairwise (fun a b => b.1 ≤ a.1) := by
  induction l generalizing acc with
  | nil => simpa using h
  | cons x xs ih =>
    simp only [List.foldl_cons]
    exact ih (insertDescK x acc) (pairwise_insertDescK x acc h)

lemma pairwise_sortDescK (l : List (Int × JVal)) :
    (sortDescK l).Pairwise (fun a b => b.1 ≤ a.1) :=
  pairwise_foldl_insertDescK l [] (by simp)

lemma decorate_ok_iff (o : JVal) (rest : List JVal) (kl : List (Int × JVal)) :
    decorate (o :: rest) = .ok kl ↔
      ∃ k tail, created_value o = .ok k ∧ decorate rest = .ok tail
        ∧ kl = (k, o) :: tail := by
  constructor
  · intro h
    cases h1 : created_value o with
    | error e => rw [decorate, h1] at h; exact absurd h (by simp [ebind_error])
    | ok k =>
      cases h2 : decorate rest with
      | error e =>
        rw [decorate, h1, h2] at h
        exact absurd h (by simp [ebind_ok, ebind_error])
      | ok tail =>
        rw [decorate, h1, h2] at h
        simp only [ebind_ok, epure_def, Except.ok.injEq] at h
        exact ⟨k, tail, rfl, rfl, h.symm⟩
  · rintro ⟨k, tail, h1, h2, rfl⟩
    rw [decorate, h1, h2]
    rfl

lemma decorate_ok_length (l : List JVal) (kl : List (Int × JVal))
    (h : decorate l = .ok kl) : kl.length = l.length := by
  induction l generalizing kl with
  | nil =>
    simp only [decorate, Except.ok.injEq] at h
    simp [← h]
  | cons o rest ih =>
    obtain ⟨k, tail, _, h2, rfl⟩ := (decorate_ok_iff o rest kl).mp h
    simp [ih tail h2]

lemma decorate_mem_key (l : List JVal) (kl : List (Int × JVal))
    (h : decorate l = .ok kl) :
    ∀ p ∈ kl, created_value p.2 = .ok p.1 := by
  induction l generalizing kl with
  | nil =>
    simp only [decorate, Except.ok.injEq] at h
    subst h
    intro p hp
    simp at hp
  | cons o rest ih =>
    obtain ⟨k, tail, h1, h2, rfl⟩ := (decorate_ok_iff o rest kl).mp h
    intro p hp
    rw [List.mem_cons] at hp
    rcases hp with hp | hp
    · simp [hp, h1]
    · exact ih tail h2 p hp

lemma sortByCreatedDesc_ok_length (l out : List JVal)
    (h : sortByCreatedDesc l = .ok out) : out.length = l.length := by
  cases hd : decorate l with
  | error e => rw [sortByCreatedDesc, hd] at h; exact absurd h (by simp [ebind_error])
  | ok kl =>
    rw [sortByCreatedDesc, hd] at h
    simp only [ebind_ok, epure_def, Except.ok.injEq] at h
    rw [← h]
    simp [sortDescK_length, decorate_ok_length l kl hd]

/-- C3 counterexample: a record with absent creation time (key 0) sorts
BEFORE a record with the valid numeric creation time `-1`, so it does not
sort after every record with a valid numeric creation time. -/
theorem created_sort_missing_first_cex :
    jget ([] : List (String × JVal)) "created_time" = JVal.jnull
    ∧ created_value cexAbsent = .ok 0
    ∧ created_value_inner (.jdict [("value", .jint (-1))]) = .ok (-1)
    ∧ created_value cexNegTime = .ok (-1)
    ∧ sortByCreatedDesc [cexAbsent, cexNegTime] = .ok [cexAbsent, cexNegTime]
    ∧ cexAbsent ≠ cexNegTime :=
  ⟨rfl, rfl, rfl, rfl, rfl, by simp [cexAbsent, cexNegTime]⟩

/-- C3 (amended): in strategy-4 emulation the creation-time key of a
mapping record is the numeric epoch value of the nested
`created_time.value` field; the key computation never raises on a mapping
record; records whose creation time is absent, or whose nested value the
`int(...)` conversion rejects, get key 0 — and since the sorted output is
in non-increasing key order, they sort after every record with a positive
numeric creation time (records with zero or negative creation times can
tie with or follow them). -/
theorem created_sort_key_semantics :
    (∀ fs : List (String × JVal), ∃ n : Int, created_value (.jdict fs) = .ok n)
    ∧ (∀ fs : List (String × JVal), jget fs "created_time" = .jnull →
        created_value (.jdict fs) = .ok 0)
    ∧ (∀ fs : List (String × JVal), ∀ e : String,
        created_value_inner (pyOr (jget fs "created_time") (.jdict [])) = .error e →
        created_value (.jdict fs) = .ok 0)
    ∧ (∀ (l out : List JVal), sortByCreatedDesc l = .ok out →
        ∀ (i j : Nat) (hi : i < out.length) (hj : j < out.length), i < j →
          ∀ ki kj, created_value (out.get ⟨i, hi⟩) = .ok ki →
            created_value (out.get ⟨j, hj⟩) = .ok kj → kj ≤ ki) := by
  refine ⟨?_, ?_, ?_, ?_⟩
  · intro fs
    unfold created_value
    simp only [dictGet, ebind_ok]
    cases h : created_value_inner (pyOr (jget fs "created_time") (.jdict [])) with
    | ok n => exact ⟨n, rfl⟩
    | error e => exact ⟨0, rfl⟩
  · intro fs h
    unfold created_value
    simp only [dictGet, ebind_ok, h]
    rfl
  · intro fs e h
    unfold created_value
    simp only [dictGet, ebind_ok, h]
    rfl
  · intro l out hsort i j hi hj hij ki kj hki hkj
    cases hd : decorate l with
    | error e =>
      rw [sortByCreatedDesc, hd] at hsort
      exact absurd hsort (by simp [ebind_error])
    | ok kl =>
      rw [sortByCreatedDesc, hd] at hsort
      simp only [ebind_ok, epure_def, Except.ok.injEq] at hsort
      subst hsort
      have hlen : ((sortDescK kl).map Prod.snd).length = (sortDescK kl).length :=
        List.length_map _ _
      have hi2 : i < (sortDescK kl).length := by rw [← hlen]; exact hi
      have hj2 : j < (sortDescK kl).length := by rw [← hlen]; exact hj
      have hpw := pairwise_sortDescK kl
      have hrel := List.pairwise_iff_get.mp hpw ⟨i, hi2⟩ ⟨j, hj2⟩ hij
      have hgi : ((sortDescK kl).map Prod.snd).get ⟨i, hi⟩ =
          ((sortDescK kl).get ⟨i, hi2⟩).2 := by
        simp [List.get_map]
      have hgj : ((sortDescK kl).map Prod.snd).get ⟨j, hj⟩ =
          ((sortDescK kl).get ⟨j, hj2⟩).2 := by
        simp [List.get_map]
      have hmi : (sortDescK kl).get ⟨i, hi2⟩ ∈ kl :=
        mem_sortDescK _ kl (List.get_mem _ _ hi2)
      have hmj : (sortDescK kl).get ⟨j, hj2⟩ ∈ kl :=
        mem_sortDescK _ kl (List.get_mem _ _ hj2)
      have hcvi := decorate_mem_key l kl hd _ hmi
      have hcvj := decorate_mem_key l kl hd _ hmj
      rw [hgi, hcvi] at hki
      rw [hgj, hcvj] at hkj
      have e1 : ((sortDescK kl).get ⟨i, hi2⟩).1 = ki := by
        injection hki
      have e2 : ((sortDescK kl).get ⟨j, hj2⟩).1 = kj := by
        injection hkj
      omega

/-- C3 witness: on a concrete sorted pair the later record's key is bounded
by the earlier one's. -/
theorem created_sort_key_semantics_witness : (-1 : Int) ≤ 0 :=
  created_sort_key_semantics.2.2.2 [cexNegTime, cexAbsent] [cexAbsent, cexNegTime]
    rfl 0 1 (by decide) (by decide) (by decide) 0 (-1) rfl rfl

/-- C1: whenever strategy 4 of `list_my_tickets` completes on a pulled
block, with `page ≥ 1` and `page_size ∈ [1, 200]`, the returned page holds
`min(page_size, max(0, total_filtered - (page-1)*page_size))` records,
where `total_filtered` is the number of pulled records passing the
case-insensitive requester-email filter; moreover
`row_count = len(requests)`, `total_count = total_filtered`, and
`has_more_rows ↔ page*page_size < total_filtered`. -/
theorem strategy4_page_shape (items : List JVal) (email : String)
    (page page_size : Nat) (hp : 1 ≤ page) (hs1 : 1 ≤ page_size)
    (hs2 : page_size ≤ 200) (r : PageResult)
    (h : list_my_tickets_strategy4 items email page page_size = .ok r)
    (tf : Nat) (htf : totalFiltered items email = some tf) :
    ((r.requests.length : Int) =
      min (page_size : Int) (max 0 ((tf : Int) - ((page : Int) - 1) * (page_size : Int))))
    ∧ r.list_info.row_count = r.requests.length
    ∧ r.list_info.total_count = tf
    ∧ (r.list_info.has_more_rows = true ↔ page * page_size < tf) := by
  cases hf : filterByEmail (pyLower (pyTrim email)) items with
  | error e =>
    rw [list_my_tickets_strategy4, hf] at h
    exact absurd h (by simp [ebind_error])
  | ok filtered =>
    rw [totalFiltered, hf] at htf
    have htf2 : tf = filtered.length := by
      simpa using htf.symm
    cases hs : sortByCreatedDesc filtered with
    | error e =>
      rw [list_my_tickets_strategy4, hf] at h
      simp only [ebind_ok] at h
      rw [hs] at h
      exact absurd h (by simp [ebind_error])
    | ok sorted =>
      have hslen : sorted.length = filtered.length :=
        sortByCreatedDesc_ok_length filtered sorted hs
      rw [list_my_tickets_strategy4, hf] at h
      simp only [ebind_ok] at h
      rw [hs] at h
      simp only [ebind_ok, epure_def, Except.ok.injEq] at h
      subst h
      obtain ⟨p, rfl⟩ : ∃ p, page = p + 1 := ⟨page - 1, by omega⟩
      have hplen : ((sorted.drop ((p + 1 - 1) * page_size)).take page_size).length =
          min page_size (filtered.length - (p + 1 - 1) * page_size) := by
        rw [List.length_take, List.length_drop, hslen]
      refine ⟨?_, rfl, htf2.symm, ?_⟩
      · simp only [hplen, htf2]
        have hc : (((p + 1 : Nat) : Int) - 1) * (page_size : Int) =
            (((p + 1 - 1) * page_size : Nat) : Int) := by
          push_cast
          ring
        rw [hc]
        generalize (p + 1 - 1) * page_size = A
        omega
      · simp only [htf2, Nat.add_sub_cancel]
        have he : p * page_size + page_size = (p + 1) * page_size := by
          ring
        rw [he]
        simp [decide_eq_true_iff]

/-- C1 witness: on the concrete pulled block `itemsW` with two matching
records, page 1 of size 1 holds exactly one record with
`total_count = 2` and more rows pending. -/
theorem strategy4_page_shape_witness :
    ((pageW.requests.length : Int) =
      min ((1 : Nat) : Int) (max 0 (((2 : Nat) : Int) - (((1 : Nat) : Int) - 1) * ((1 : Nat) : Int))))
    ∧ pageW.list_info.row_count = pageW.requests.length
    ∧ pageW.list_info.total_count = 2
    ∧ (pageW.list_info.has_more_rows = true ↔ 1 * 1 < 2) :=
  strategy4_page_shape itemsW "a@x.com" 1 1 (by decide) (by decide) (by decide)
    pageW rfl 2 rfl
